import Mathlib

/-!
# EPD demo: BLE write endpoint, button handler, render loop, shell command

A shallow embedding of `src/lvgl/src/bt.c` and `src/lvgl/src/main.c`.

* Bytes, lengths, offsets, pin numbers and masks are natural numbers; no
  operation of the two files does arithmetic on a byte.
* The array `rx_data` is the list `State.rx_data`, 248 bytes long (its
  definition in `bt.c`).  Every byte store goes through `store`: a store
  whose index is inside the array updates the list, a store whose index is
  at or past the end of the array is appended to `State.oob` (index and
  value, oldest first) and lands on whatever the linker has put there.
* Where the linker has put the flags `data_received` and `refresh`, the
  variable `button_pressed` and the pointer `label` relative to `rx_data` is
  the `Layout` carried in `State.layout`; no operation changes it.  A store
  behind the array that hits the byte of one of the two flags or of
  `button_pressed` changes that variable.  A store that hits the pointer
  `label` is logged like any other, but what a later call through the
  overwritten pointer does is not followed: no theorem below speaks about a
  text set or drawn after a store that the layout of its state places on
  that pointer.
* Calls into the graphics library are modelled by their effect on the text
  of the one label (`State.label`) and on the sequence of texts drawn so far
  (`State.frames`, one entry for each `lv_task_handler` call).
* Calls into the BLE host stack are recorded in `BtState.calls`; what the
  stack answers (error codes, the negotiated MTU) is a parameter.
* Log output (`LOG_INF`, `LOG_ERR`, `shell_print`) has no effect on the state
  and is left out, except the `printk` lines of `bt.c`, which are recorded.
-/

namespace EPD

/-! ## Shared data -/

/-- The size of `rx_data` where it is defined: `uint8_t rx_data[248];` (bt.c:34). -/
def RX_DATA_SIZE : Nat := 248

/-- The size of `rx_data` as main.c declares it: `extern uint8_t rx_data[384];`
(main.c:24).  This is what `sizeof(rx_data)` evaluates to inside main.c. -/
def RX_DATA_SIZE_MAIN : Nat := 384

/-- The places of the other globals behind `rx_data`: for each of them the
index, counted in bytes from `rx_data[0]`, of its byte (of its first byte
for the pointer `label`), or `none` when it does not lie behind the array.
Objects behind the array start at index 248 or above. -/
structure Layout where
  /-- The place of the flag `data_received` of bt.c. -/
  data_received : Option Nat
  /-- The place of the flag `refresh` of main.c. -/
  refresh : Option Nat
  /-- The place of the variable `button_pressed` of main.c. -/
  button_pressed : Option Nat
  /-- The place of the first byte of the pointer `label` of main.c. -/
  label : Option Nat
deriving DecidableEq, Repr

/-- The layout in which none of the four globals lies behind `rx_data`. -/
def Layout.apart : Layout :=
  { data_received := none, refresh := none, button_pressed := none, label := none }

/-- Whether an object placed at `o` lies outside the first `n` bytes counted
from `rx_data[0]`, so that no store at an index below `n` can hit it. -/
def beyond (o : Option Nat) (n : Nat) : Bool :=
  match o with
  | none => true
  | some i => decide (n ≤ i)

/-- Whether `refresh`, `button_pressed` and `label` all lie outside the first
`n` bytes counted from `rx_data[0]`. -/
def Layout.clear (l : Layout) (n : Nat) : Bool :=
  beyond l.refresh n && beyond l.button_pressed n && beyond l.label n

/-- The globals of the two files that the write handler, the button handler,
the polling loop and the shell command read or write. -/
structure State where
  /-- The array `rx_data` of bt.c. -/
  rx_data : List Nat
  /-- The flag `data_received` of bt.c. -/
  data_received : Bool
  /-- Stores addressed at or past the end of `rx_data`: index and value. -/
  oob : List (Nat × Nat)
  /-- The flag `refresh` of main.c. -/
  refresh : Bool
  /-- The variable `button_pressed` of main.c. -/
  button_pressed : Nat
  /-- The text of the label object `label` of main.c. -/
  label : List Nat
  /-- The texts drawn by the calls of `lv_task_handler`, oldest first. -/
  frames : List (List Nat)
  /-- The places of the other globals behind `rx_data`. -/
  layout : Layout
deriving DecidableEq, Repr

/-- One byte store `rx_data[i] = v`.  Inside the array it changes the array.
At or past the end of the array it is logged and changes the flag or the
variable whose byte lies at that index, if there is one: a flag reads true
when its byte is not zero. -/
def store (m : State) (i v : Nat) : State :=
  if i < RX_DATA_SIZE then { m with rx_data := m.rx_data.set i v }
  else
    { m with
      oob := m.oob ++ [(i, v)]
      data_received := if m.layout.data_received = some i then v != 0 else m.data_received
      refresh := if m.layout.refresh = some i then v != 0 else m.refresh
      button_pressed := if m.layout.button_pressed = some i then v else m.button_pressed }

/-- The loop `for (i = 0; i < n; i++) rx_data[i] = f i;`. -/
def storeLoop (f : Nat → Nat) : Nat → State → State
  | 0, m => m
  | n + 1, m => store (storeLoop f n m) n (f n)

/-- The call `memcpy(rx_data, src, n)`: `n` bytes of `src`, in order. -/
def memcpy (m : State) (src : List Nat) (n : Nat) : State :=
  storeLoop (fun i => src.getD i 0) n m

/-- The call `memset(rx_data, c, n)`. -/
def memset (m : State) (c n : Nat) : State :=
  storeLoop (fun _ => c) n m

/-- The bytes of a C string: those before the first zero byte.  For a list
without a zero byte this is the whole list: a read of the C code would then
run on past the object, which the model does not follow. -/
def c_str (bytes : List Nat) : List Nat :=
  bytes.takeWhile (fun b => b != 0)

/-- The call `strncpy(rx_data, src, n)`: the bytes of the string `src`, at
most `n` of them, then zero bytes until `n` bytes have been stored. -/
def strncpy (m : State) (src : List Nat) (n : Nat) : State :=
  storeLoop (fun i => (c_str src).getD i 0) n m

/-- The call `lv_label_set_text(label, text)`: the label takes a copy of the
string `text`. -/
def lv_label_set_text (m : State) (text : List Nat) : State :=
  { m with label := c_str text }

/-- The call `lv_task_handler()`: the label is drawn with its current text. -/
def lv_task_handler (m : State) : State :=
  { m with frames := m.frames ++ [m.label] }

/-- The bytes of a string literal of the source. -/
def lit (s : String) : List Nat :=
  s.toList.map Char.toNat

/-! ## bt.c: the write handler -/

/-- The Zephyr constant `BT_ATT_ERR_INVALID_OFFSET` (att.h). -/
def BT_ATT_ERR_INVALID_OFFSET : Int := 0x07

/-- The Zephyr constant `BT_ATT_ERR_INVALID_ATTRIBUTE_LEN` (att.h). -/
def BT_ATT_ERR_INVALID_ATTRIBUTE_LEN : Int := 0x0d

/-- The Zephyr macro `BT_GATT_ERR(_att_err)`, which is `-(_att_err)` (gatt.h). -/
def BT_GATT_ERR (att_err : Int) : Int := -att_err

/-- The function `write_handler` (bt.c:38-58).  `buf` holds the bytes the
stack hands over, `len` and `offset` are the arguments of the same name; the
result is the return value and the state afterwards. -/
def write_handler (s : State) (buf : List Nat) (len offset : Nat) : Int × State :=
  if offset > 0 then
    (BT_GATT_ERR BT_ATT_ERR_INVALID_OFFSET, s)
  else if len > RX_DATA_SIZE then
    (BT_GATT_ERR BT_ATT_ERR_INVALID_ATTRIBUTE_LEN, s)
  else
    let s1 := memcpy s buf len
    let s2 := store s1 len 0
    let s3 := { s2 with data_received := true }
    ((len : Int), s3)

/-! ## main.c: the button handler, the polling loop, the shell command -/

/-- The Zephyr macro `BIT(n)`, which is `1UL << n`. -/
def BIT (n : Nat) : Nat := 1 <<< n

/-- The function `button_isr_callback` (main.c:44-55).  `pin0` and `pin1`
are `button0_gpio.pin` and `button1_gpio.pin`, taken from the devicetree. -/
def button_isr_callback (pin0 pin1 : Nat) (s : State) (pins : Nat) : State :=
  let s1 :=
    if pins &&& BIT pin0 ≠ 0 then { s with button_pressed := 0 }
    else if pins &&& BIT pin1 ≠ 0 then { s with button_pressed := 1 }
    else s
  { s1 with refresh := true }

/-- The first `if` of the body of `while(1)` in `main` (main.c:155-160). -/
def main_loop_data (s : State) : State :=
  if s.data_received then
    let s1 := { s with data_received := false }
    let s2 := lv_label_set_text s1 s1.rx_data
    let s3 := lv_task_handler s2
    memset s3 0 RX_DATA_SIZE_MAIN
  else s

/-- The second `if` of the body of `while(1)` in `main` (main.c:162-170). -/
def main_loop_refresh (s : State) : State :=
  if s.refresh then
    let s1 := { s with refresh := false }
    let s2 :=
      if s1.button_pressed = 0 then lv_label_set_text s1 (lit "Button 0 pressed")
      else lv_label_set_text s1 (lit "Button 1 pressed")
    lv_task_handler s2
  else s

/-- One iteration of `while(1)` in `main` (main.c:153-172): the two `if`
statements one after the other, then the sleep. -/
def main_loop_iter (s : State) : State :=
  main_loop_refresh (main_loop_data s)

/-- The function `cmd_refresh` (main.c:175-187).  `ptr_size` is
`sizeof(argv)`, the size of a `char **` on the target (4 on the 32-bit
boards, 8 on a 64-bit host build); `arg` is the string `argv[1]`. -/
def cmd_refresh (ptr_size : Nat) (s : State) (arg : List Nat) : Int × State :=
  let s1 := memset s 0 RX_DATA_SIZE_MAIN
  let s2 := strncpy s1 arg (ptr_size - 1)
  let s3 := store s2 (RX_DATA_SIZE_MAIN - 1) 0
  let s4 := lv_label_set_text s3 s3.rx_data
  let s5 := lv_task_handler s4
  (0, s5)

/-! ## bt.c: connection callbacks and start-up -/

/-- A call into the BLE host stack, or a line printed with `printk`. -/
inductive StackCall where
  | bt_enable
  | bt_gatt_cb_register
  | bt_gatt_find_by_uuid
  | bt_le_adv_start
  | bt_le_adv_stop
  | bt_conn_ref (conn : Nat)
  | bt_conn_unref (conn : Nat)
  | k_sleep_seconds (n : Nat)
  | bt_gatt_get_uatt_mtu (conn : Option Nat)
  | bt_gatt_notify (conn : Option Nat) (data : List Nat)
  | printk (line : String)
deriving DecidableEq, Repr

/-- The static `default_conn` of bt.c (`none` is `NULL`) and the calls made
into the stack so far, oldest first. -/
structure BtState where
  default_conn : Option Nat
  calls : List StackCall
deriving DecidableEq, Repr

/-- The macro `ATT_NTF_SIZE(payload_len)` (bt.c:24-25). -/
def ATT_NTF_SIZE (payload_len : Nat) : Nat := 1 + 2 + payload_len

/-- The function `connected` (bt.c:94-102). -/
def connected (s : BtState) (conn : Nat) (err : Nat) : BtState :=
  if err ≠ 0 then s
  else { default_conn := some conn, calls := s.calls ++ [StackCall.bt_conn_ref conn] }

/-- The function `disconnected` (bt.c:104-118).  `adv_err` is what
`bt_le_adv_start` returns. -/
def disconnected (s : BtState) (conn : Nat) (_reason : Nat) (adv_err : Int) : BtState :=
  let s1 : BtState := { s with calls := s.calls ++ [StackCall.bt_conn_unref conn] }
  let s2 : BtState := { s1 with default_conn := none }
  let s3 : BtState := { s2 with calls := s2.calls ++ [StackCall.bt_le_adv_stop] }
  let s4 : BtState := { s3 with calls := s3.calls ++ [StackCall.bt_le_adv_start] }
  if adv_err ≠ 0 then
    { s4 with calls := s4.calls ++ [StackCall.printk "Restart advertising failed"] }
  else
    { s4 with calls := s4.calls ++ [StackCall.printk "Advertising restarted"] }

/-- The array `notify_data` of `bt_init` after its two assignments
(bt.c:149-152). -/
def notify_data : List Nat :=
  ((List.replicate 100 0).set 13 0x7f).set 99 0x55

/-- The function `bt_init` (bt.c:125-166).  `enable_err` is what `bt_enable`
returns, `adv_err` what `bt_le_adv_start` returns and `mtu` what
`bt_gatt_get_uatt_mtu(default_conn)` returns; `s.default_conn` is the
connection at the time the sleep ends. -/
def bt_init (s : BtState) (enable_err adv_err : Int) (mtu : Nat) : Int × BtState :=
  let s1 : BtState := { s with calls := s.calls ++ [StackCall.bt_enable] }
  if enable_err ≠ 0 then (-1, s1)
  else
    let s2 : BtState := { s1 with calls := s1.calls ++
      [StackCall.printk "Bluetooth initialized", StackCall.bt_gatt_cb_register,
       StackCall.bt_gatt_find_by_uuid, StackCall.bt_le_adv_start] }
    if adv_err ≠ 0 then
      (-1, { s2 with calls := s2.calls ++ [StackCall.printk "Advertising failed to start"] })
    else
      let s3 : BtState := { s2 with calls := s2.calls ++
        [StackCall.printk "Advertising successfully started", StackCall.k_sleep_seconds 1,
         StackCall.bt_gatt_get_uatt_mtu s2.default_conn] }
      if mtu ≥ ATT_NTF_SIZE notify_data.length then
        (0, { s3 with calls := s3.calls ++
          [StackCall.bt_gatt_notify s3.default_conn notify_data] })
      else
        (0, { s3 with calls := s3.calls ++
          [StackCall.bt_gatt_get_uatt_mtu s3.default_conn,
           StackCall.printk "Skipping notification since UATT MTU is not sufficient."] })

/-- The payloads of the notifications sent among the calls `cs`. -/
def notifications : List StackCall → List (List Nat)
  | [] => []
  | StackCall.bt_gatt_notify _ d :: cs => d :: notifications cs
  | _ :: cs => notifications cs


/-- The state in which `main` enters its loop: the zero-initialised globals,
the label showing the start-up text, drawn once (main.c:139-151), in an
image in which none of the other globals lies behind `rx_data`. -/
def boot : State :=
  { rx_data := List.replicate RX_DATA_SIZE 0
    data_received := false
    oob := []
    refresh := false
    button_pressed := 0
    label := lit "This is a simple EPD demo."
    frames := [lit "This is a simple EPD demo."]
    layout := Layout.apart }

/-- A state with both events pending: the text "hi" written over BLE and
button 1 pressed, neither yet handled by the loop. -/
def both_pending : State :=
  { boot with
    rx_data := lit "hi" ++ List.replicate 246 0
    data_received := true
    refresh := true
    button_pressed := 1 }

/-- The state `both_pending` in an image with the layout `l`. -/
def both_pending_at (l : Layout) : State :=
  { both_pending with layout := l }

/-! ## Stores into `rx_data` -/

theorem store_rx_length (m : State) (i v : Nat) :
    (store m i v).rx_data.length = m.rx_data.length := by
  unfold store
  split <;> simp

theorem store_frame (m : State) (i v : Nat) :
    (store m i v).label = m.label ∧ (store m i v).frames = m.frames ∧
    (store m i v).layout = m.layout := by
  unfold store
  split <;> simp

theorem store_data_received (m : State) (i v : Nat) :
    (store m i v).data_received =
      if RX_DATA_SIZE ≤ i ∧ m.layout.data_received = some i then v != 0
      else m.data_received := by
  unfold store
  by_cases hi : i < RX_DATA_SIZE
  · have : ¬ RX_DATA_SIZE ≤ i := by omega
    simp [hi, this]
  · have : RX_DATA_SIZE ≤ i := by omega
    simp [hi, this]

theorem store_refresh (m : State) (i v : Nat) :
    (store m i v).refresh =
      if RX_DATA_SIZE ≤ i ∧ m.layout.refresh = some i then v != 0 else m.refresh := by
  unfold store
  by_cases hi : i < RX_DATA_SIZE
  · have : ¬ RX_DATA_SIZE ≤ i := by omega
    simp [hi, this]
  · have : RX_DATA_SIZE ≤ i := by omega
    simp [hi, this]

theorem store_button_pressed (m : State) (i v : Nat) :
    (store m i v).button_pressed =
      if RX_DATA_SIZE ≤ i ∧ m.layout.button_pressed = some i then v
      else m.button_pressed := by
  unfold store
  by_cases hi : i < RX_DATA_SIZE
  · have : ¬ RX_DATA_SIZE ≤ i := by omega
    simp [hi, this]
  · have : RX_DATA_SIZE ≤ i := by omega
    simp [hi, this]

theorem storeLoop_rx_length (f : Nat → Nat) (n : Nat) (m : State) :
    (storeLoop f n m).rx_data.length = m.rx_data.length := by
  induction n with
  | zero => rfl
  | succ k ih => simp [storeLoop, store_rx_length, ih]

theorem storeLoop_frame (f : Nat → Nat) (n : Nat) (m : State) :
    (storeLoop f n m).label = m.label ∧ (storeLoop f n m).frames = m.frames ∧
    (storeLoop f n m).layout = m.layout := by
  induction n with
  | zero => simp [storeLoop]
  | succ k ih =>
    have h := store_frame (storeLoop f k m) k (f k)
    simp only [storeLoop]
    rw [h.1, h.2.1, h.2.2]
    exact ih

/-- The loop leaves `data_received` alone when its byte is not among the
bytes the loop stores behind the array. -/
theorem storeLoop_data_received_keep (f : Nat → Nat) (n : Nat) (m : State)
    (h : ∀ i, m.layout.data_received = some i → i < RX_DATA_SIZE ∨ n ≤ i) :
    (storeLoop f n m).data_received = m.data_received := by
  induction n with
  | zero => rfl
  | succ k ih =>
    simp only [storeLoop]
    rw [store_data_received, (storeLoop_frame f k m).2.2]
    have hk : ¬ (RX_DATA_SIZE ≤ k ∧ m.layout.data_received = some k) := by
      intro hc
      have := h k hc.2
      omega
    rw [if_neg hk]
    exact ih (fun i hi => by have := h i hi; omega)

/-- The loop leaves `refresh` alone when its byte is not among the bytes the
loop stores behind the array. -/
theorem storeLoop_refresh_keep (f : Nat → Nat) (n : Nat) (m : State)
    (h : ∀ i, m.layout.refresh = some i → i < RX_DATA_SIZE ∨ n ≤ i) :
    (storeLoop f n m).refresh = m.refresh := by
  induction n with
  | zero => rfl
  | succ k ih =>
    simp only [storeLoop]
    rw [store_refresh, (storeLoop_frame f k m).2.2]
    have hk : ¬ (RX_DATA_SIZE ≤ k ∧ m.layout.refresh = some k) := by
      intro hc
      have := h k hc.2
      omega
    rw [if_neg hk]
    exact ih (fun i hi => by have := h i hi; omega)

/-- The loop leaves `button_pressed` alone when its byte is not among the
bytes the loop stores behind the array. -/
theorem storeLoop_button_pressed_keep (f : Nat → Nat) (n : Nat) (m : State)
    (h : ∀ i, m.layout.button_pressed = some i → i < RX_DATA_SIZE ∨ n ≤ i) :
    (storeLoop f n m).button_pressed = m.button_pressed := by
  induction n with
  | zero => rfl
  | succ k ih =>
    simp only [storeLoop]
    rw [store_button_pressed, (storeLoop_frame f k m).2.2]
    have hk : ¬ (RX_DATA_SIZE ≤ k ∧ m.layout.button_pressed = some k) := by
      intro hc
      have := h k hc.2
      omega
    rw [if_neg hk]
    exact ih (fun i hi => by have := h i hi; omega)

/-- Stores of zero bytes cannot set a flag that is false. -/
theorem storeLoop_zero_data_received (n : Nat) (m : State) (h : m.data_received = false) :
    (storeLoop (fun _ => 0) n m).data_received = false := by
  induction n with
  | zero => exact h
  | succ k ih =>
    simp only [storeLoop]
    rw [store_data_received, ih]
    split <;> rfl

/-- Stores of zero bytes cannot set a flag that is false. -/
theorem storeLoop_zero_refresh (n : Nat) (m : State) (h : m.refresh = false) :
    (storeLoop (fun _ => 0) n m).refresh = false := by
  induction n with
  | zero => exact h
  | succ k ih =>
    simp only [storeLoop]
    rw [store_refresh, ih]
    split <;> rfl

/-- A loop of zero stores that reaches the byte of `refresh` behind the
array leaves the flag false. -/
theorem storeLoop_zero_refresh_hit (n : Nat) (m : State) (k : Nat)
    (hk : m.layout.refresh = some k) (h1 : RX_DATA_SIZE ≤ k) (h2 : k < n) :
    (storeLoop (fun _ => 0) n m).refresh = false := by
  induction n with
  | zero => omega
  | succ j ih =>
    simp only [storeLoop]
    rw [store_refresh, (storeLoop_frame (fun _ => 0) j m).2.2]
    by_cases hj : j = k
    · subst hj
      rw [if_pos ⟨h1, hk⟩]
      rfl
    · have hlt : k < j := by omega
      rw [ih hlt]
      split <;> rfl

theorem store_getElem? (m : State) (i v j : Nat) :
    (store m i v).rx_data[j]? =
      if j = i ∧ i < RX_DATA_SIZE ∧ i < m.rx_data.length then some v else m.rx_data[j]? := by
  unfold store
  by_cases hi : i < RX_DATA_SIZE
  · simp only [hi, if_true, true_and]
    rw [List.getElem?_set]
    by_cases hij : i = j
    · subst hij
      by_cases hl : i < m.rx_data.length
      · simp [hl]
      · simp [hl, List.getElem?_eq_none (Nat.le_of_not_lt hl)]
    · have : ¬ j = i := fun h => hij h.symm
      simp [hij, this]
  · simp [hi]

theorem storeLoop_getElem? (f : Nat → Nat) (n : Nat) (m : State) (j : Nat) :
    (storeLoop f n m).rx_data[j]? =
      if j < n ∧ j < RX_DATA_SIZE ∧ j < m.rx_data.length then some (f j) else m.rx_data[j]? := by
  induction n with
  | zero => simp [storeLoop]
  | succ k ih =>
    simp only [storeLoop]
    rw [store_getElem?, storeLoop_rx_length, ih]
    by_cases hjk : j = k
    · subst hjk
      by_cases h1 : j < RX_DATA_SIZE ∧ j < m.rx_data.length
      · simp [h1]
      · have h2 : ¬ (j < j + 1 ∧ j < RX_DATA_SIZE ∧ j < m.rx_data.length) := fun h => h1 h.2
        have h3 : ¬ (j < j ∧ j < RX_DATA_SIZE ∧ j < m.rx_data.length) := fun h => h1 h.2
        rw [if_neg h3, if_neg h2]
        simp only [true_and, h1, if_false]
    · have h1 : (j < k + 1) ↔ (j < k) := by omega
      simp only [hjk, false_and, if_false, h1]

theorem store_oob (m : State) (i v : Nat) :
    (store m i v).oob = if i < RX_DATA_SIZE then m.oob else m.oob ++ [(i, v)] := by
  unfold store
  split <;> simp

theorem storeLoop_oob (f : Nat → Nat) (n : Nat) (m : State) :
    (storeLoop f n m).oob =
      m.oob ++ ((List.range n).filter (fun i => decide (RX_DATA_SIZE ≤ i))).map (fun i => (i, f i)) := by
  induction n with
  | zero => simp [storeLoop]
  | succ k ih =>
    simp only [storeLoop]
    rw [store_oob, ih, List.range_succ, List.filter_append, List.map_append]
    by_cases hk : k < RX_DATA_SIZE
    · have : ¬ RX_DATA_SIZE ≤ k := by omega
      simp [hk, this]
    · have : RX_DATA_SIZE ≤ k := by omega
      simp [hk, this]

/-- The array after the loop, as a list: the first `n` cells hold `f`, the
rest is as before. -/
theorem storeLoop_rx_data (f : Nat → Nat) (n : Nat) (m : State)
    (hlen : m.rx_data.length = RX_DATA_SIZE) (hn : n ≤ RX_DATA_SIZE) :
    (storeLoop f n m).rx_data = (List.range n).map f ++ m.rx_data.drop n := by
  apply List.ext_getElem?
  intro j
  rw [storeLoop_getElem?]
  by_cases hj : j < n
  · have h1 : j < n ∧ j < RX_DATA_SIZE ∧ j < m.rx_data.length := ⟨hj, by omega, by omega⟩
    rw [if_pos h1, List.getElem?_append_left (by simpa using hj)]
    simp [hj]
  · have h1 : ¬ (j < n ∧ j < RX_DATA_SIZE ∧ j < m.rx_data.length) := fun h => hj h.1
    rw [if_neg h1, List.getElem?_append_right (by simpa using hj)]
    simp only [List.length_map, List.length_range, List.getElem?_drop]
    congr 1
    omega


theorem storeLoop_rx_data_all (f : Nat → Nat) (n : Nat) (m : State)
    (hlen : m.rx_data.length = RX_DATA_SIZE) (hn : RX_DATA_SIZE ≤ n) :
    (storeLoop f n m).rx_data = (List.range RX_DATA_SIZE).map f := by
  apply List.ext_getElem?
  intro j
  rw [storeLoop_getElem?]
  by_cases hj : j < RX_DATA_SIZE
  · have h1 : j < n ∧ j < RX_DATA_SIZE ∧ j < m.rx_data.length := ⟨by omega, hj, by omega⟩
    rw [if_pos h1]
    simp [hj]
  · have h1 : ¬ (j < n ∧ j < RX_DATA_SIZE ∧ j < m.rx_data.length) := fun h => hj h.2.1
    rw [if_neg h1, List.getElem?_eq_none (by omega), List.getElem?_eq_none (by simpa using hj)]

theorem range_map_getD (l : List Nat) :
    (List.range l.length).map (fun i => l.getD i 0) = l := by
  apply List.ext_getElem?
  intro j
  by_cases hj : j < l.length
  · simp [hj, List.getD_eq_getElem?_getD, List.getElem?_eq_getElem hj]
  · rw [List.getElem?_eq_none (by simpa using hj), List.getElem?_eq_none (by omega)]

/-! ## The write handler -/

theorem write_handler_rx_data (s : State) (buf : List Nat)
    (hlen : s.rx_data.length = RX_DATA_SIZE) (hb : buf.length < RX_DATA_SIZE) :
    (write_handler s buf buf.length 0).2.rx_data =
      buf ++ 0 :: s.rx_data.drop (buf.length + 1) := by
  have h0 : ¬ (buf.length > RX_DATA_SIZE) := by omega
  simp only [write_handler, gt_iff_lt, Nat.lt_irrefl, if_false, h0, memcpy]
  apply List.ext_getElem?
  intro j
  rw [store_getElem?, storeLoop_rx_length, storeLoop_rx_data _ _ _ hlen (by omega),
    range_map_getD]
  by_cases hj : j = buf.length
  · subst hj
    have h1 : buf.length = buf.length ∧ buf.length < RX_DATA_SIZE ∧
        buf.length < s.rx_data.length := ⟨rfl, hb, by omega⟩
    rw [if_pos h1, List.getElem?_append_right (Nat.le_refl _)]
    simp
  · have h1 : ¬ (j = buf.length ∧ buf.length < RX_DATA_SIZE ∧
        buf.length < s.rx_data.length) := fun h => hj h.1
    rw [if_neg h1]
    by_cases hlt : j < buf.length
    · rw [List.getElem?_append_left hlt, List.getElem?_append_left hlt]
    · have hle : buf.length ≤ j := by omega
      rw [List.getElem?_append_right hle, List.getElem?_append_right hle]
      obtain ⟨k, hk⟩ : ∃ k, j - buf.length = k + 1 := ⟨j - buf.length - 1, by omega⟩
      rw [hk, List.getElem?_cons_succ, List.getElem?_drop, List.getElem?_drop]
      congr 1
      omega

theorem write_handler_oob (s : State) (buf : List Nat) (hb : buf.length < RX_DATA_SIZE) :
    (write_handler s buf buf.length 0).2.oob = s.oob := by
  have h0 : ¬ (buf.length > RX_DATA_SIZE) := by omega
  have h1 : ∀ x ∈ List.range buf.length, ¬ RX_DATA_SIZE ≤ x := by
    intro x hx
    have := List.mem_range.mp hx
    omega
  simp only [write_handler, gt_iff_lt, Nat.lt_irrefl, if_false, h0, memcpy]
  rw [store_oob, if_pos hb, storeLoop_oob]
  have : (List.range buf.length).filter (fun i => decide (RX_DATA_SIZE ≤ i)) = [] := by
    rw [List.filter_eq_nil_iff]
    intro x hx
    simpa using h1 x hx
  simp [this]

/-- C1. A write at offset 0 of at most `capacity - 1 = 247` bytes, from any
prior state of the buffer and the flag: the handler returns the length, the
first `length` bytes of `rx_data` are the written bytes, the byte at index
`length` is 0, `data_received` is true; the bytes behind the terminator are
as before and no store lands outside the array. -/
theorem write_handler_accepts (s : State) (buf : List Nat)
    (hlen : s.rx_data.length = RX_DATA_SIZE) (hb : buf.length ≤ RX_DATA_SIZE - 1) :
    (write_handler s buf buf.length 0).1 = (buf.length : Int) ∧
    (write_handler s buf buf.length 0).2.rx_data.take buf.length = buf ∧
    (write_handler s buf buf.length 0).2.rx_data[buf.length]? = some 0 ∧
    (write_handler s buf buf.length 0).2.data_received = true ∧
    (write_handler s buf buf.length 0).2.rx_data.drop (buf.length + 1) =
      s.rx_data.drop (buf.length + 1) ∧
    (write_handler s buf buf.length 0).2.rx_data.length = RX_DATA_SIZE ∧
    (write_handler s buf buf.length 0).2.oob = s.oob := by
  have hb2 : buf.length < RX_DATA_SIZE := by
    have : RX_DATA_SIZE = 248 := rfl
    omega
  have hrx := write_handler_rx_data s buf hlen hb2
  have hoob := write_handler_oob s buf hb2
  have h0 : ¬ (buf.length > RX_DATA_SIZE) := by omega
  refine ⟨?_, ?_, ?_, ?_, ?_, ?_, hoob⟩
  · simp [write_handler, h0]
  · rw [hrx]
    simp
  · rw [hrx, List.getElem?_append_right (Nat.le_refl _)]
    simp
  · simp [write_handler, h0]
  · rw [hrx]
    rw [show buf ++ 0 :: List.drop (buf.length + 1) s.rx_data =
      (buf ++ [0]) ++ List.drop (buf.length + 1) s.rx_data by simp]
    rw [List.drop_append_eq_append_drop]
    simp
  · rw [hrx]
    simp only [List.length_append, List.length_cons, List.length_drop, hlen]
    omega

/-- A witness for C1: the five bytes of "hello" written in the start-up state. -/
theorem write_handler_accepts_witness :
    (write_handler boot (lit "hello") 5 0).1 = 5 ∧
    (write_handler boot (lit "hello") 5 0).2.rx_data.take 5 = lit "hello" ∧
    (write_handler boot (lit "hello") 5 0).2.rx_data[5]? = some 0 ∧
    (write_handler boot (lit "hello") 5 0).2.data_received = true :=
  have h := write_handler_accepts boot (lit "hello") (by simp [boot]) (by decide)
  ⟨h.1, h.2.1, h.2.2.1, h.2.2.2.1⟩


theorem write_handler_too_long (s : State) (buf : List Nat) (len : Nat)
    (h : RX_DATA_SIZE < len) :
    write_handler s buf len 0 = (BT_GATT_ERR BT_ATT_ERR_INVALID_ATTRIBUTE_LEN, s) := by
  simp [write_handler, h]

theorem write_handler_full (s : State) (buf : List Nat)
    (hlen : s.rx_data.length = RX_DATA_SIZE) (hb : buf.length = RX_DATA_SIZE) :
    (write_handler s buf RX_DATA_SIZE 0).1 = (RX_DATA_SIZE : Int) ∧
    (write_handler s buf RX_DATA_SIZE 0).2.rx_data = buf ∧
    (write_handler s buf RX_DATA_SIZE 0).2.data_received = true ∧
    (write_handler s buf RX_DATA_SIZE 0).2.oob = s.oob ++ [(RX_DATA_SIZE, 0)] := by
  have hrange : ∀ x ∈ List.range RX_DATA_SIZE, ¬ RX_DATA_SIZE ≤ x := by
    intro x hx
    have := List.mem_range.mp hx
    omega
  have hfil : (List.range RX_DATA_SIZE).filter (fun i => decide (RX_DATA_SIZE ≤ i)) = [] := by
    rw [List.filter_eq_nil_iff]
    intro x hx
    simpa using hrange x hx
  refine ⟨?_, ?_, ?_, ?_⟩
  · simp [write_handler]
  · simp only [write_handler, gt_iff_lt, Nat.lt_irrefl, if_false, memcpy]
    apply List.ext_getElem?
    intro j
    rw [store_getElem?]
    have h1 : ¬ (j = RX_DATA_SIZE ∧ RX_DATA_SIZE < RX_DATA_SIZE ∧
        RX_DATA_SIZE < (storeLoop (fun i => buf.getD i 0) RX_DATA_SIZE s).rx_data.length) :=
      fun h => Nat.lt_irrefl _ h.2.1
    rw [if_neg h1, storeLoop_rx_data_all _ _ _ hlen (Nat.le_refl _)]
    conv_lhs => rw [← hb]
    rw [range_map_getD]
  · simp [write_handler]
  · simp only [write_handler, gt_iff_lt, Nat.lt_irrefl, if_false, memcpy]
    rw [store_oob, if_neg (Nat.lt_irrefl _), storeLoop_oob, hfil]
    simp

/-- C2, at the failing input. A write of 248 bytes at offset 0 has
`length > capacity - 1 = 247`, yet the handler does not reject it: it returns
248, replaces the whole buffer, sets `data_received`, and its terminator
store `rx_data[248] = 0` lands one byte past the end of the array. -/
theorem write_handler_len_248 :
    247 < (List.replicate 248 65).length ∧
    (write_handler boot (List.replicate 248 65) 248 0).1 = 248 ∧
    (write_handler boot (List.replicate 248 65) 248 0).1 ≠
      BT_GATT_ERR BT_ATT_ERR_INVALID_ATTRIBUTE_LEN ∧
    (write_handler boot (List.replicate 248 65) 248 0).2.rx_data = List.replicate 248 65 ∧
    (write_handler boot (List.replicate 248 65) 248 0).2.rx_data ≠ boot.rx_data ∧
    (write_handler boot (List.replicate 248 65) 248 0).2.data_received = true ∧
    boot.data_received = false ∧
    (write_handler boot (List.replicate 248 65) 248 0).2.oob = [(248, 0)] := by
  have h := write_handler_full boot (List.replicate 248 65) (by simp [boot])
    (List.length_replicate 248 65)
  have e : RX_DATA_SIZE = 248 := rfl
  rw [e] at h
  refine ⟨?_, h.1, ?_, h.2.1, ?_, h.2.2.1, rfl, ?_⟩
  · rw [List.length_replicate]
    decide
  · rw [h.1]
    decide
  · rw [h.2.1]
    show List.replicate 248 65 ≠ List.replicate 248 0
    decide
  · rw [h.2.2.2]
    rfl

/-- C3. A write with a non-zero offset, whatever its length and payload:
the handler returns the invalid-offset error (`-0x07`) and the state, with
`rx_data` and `data_received` in it, is as before. -/
theorem write_handler_offset (s : State) (buf : List Nat) (len offset : Nat)
    (h : offset ≠ 0) :
    (write_handler s buf len offset).1 = BT_GATT_ERR BT_ATT_ERR_INVALID_OFFSET ∧
    BT_GATT_ERR BT_ATT_ERR_INVALID_OFFSET = -7 ∧
    (write_handler s buf len offset).2 = s := by
  have h1 : offset > 0 := Nat.pos_of_ne_zero h
  simp [write_handler, h1, BT_GATT_ERR, BT_ATT_ERR_INVALID_OFFSET]

/-- A witness for C3: five bytes written at offset 2 in the start-up state. -/
theorem write_handler_offset_witness :
    (2 : Nat) ≠ 0 ∧
    (write_handler boot (lit "hello") 5 2).1 = -7 ∧
    (write_handler boot (lit "hello") 5 2).2 = boot :=
  have h := write_handler_offset boot (lit "hello") 5 2 (by decide)
  ⟨by decide, h.1.trans h.2.1, h.2.2⟩


/-! ## The polling loop -/

theorem c_str_append_zero (l t : List Nat) (h : ∀ b ∈ l, b ≠ 0) :
    c_str (l ++ 0 :: t) = l := by
  induction l with
  | nil => simp [c_str]
  | cons a l ih =>
    have ha : a ≠ 0 := h a (List.mem_cons_self a l)
    have hl : ∀ b ∈ l, b ≠ 0 := fun b hb => h b (List.mem_cons_of_mem a hb)
    have := ih hl
    simp only [c_str] at this ⊢
    simp [List.takeWhile_cons, ha, this]

theorem memset_zero_rx_data (m : State) (n : Nat)
    (hlen : m.rx_data.length = RX_DATA_SIZE) (hn : RX_DATA_SIZE ≤ n) :
    (memset m 0 n).rx_data = List.replicate RX_DATA_SIZE 0 := by
  unfold memset
  rw [storeLoop_rx_data_all _ _ _ hlen hn, List.map_const', List.length_range]

theorem beyond_spec (o : Option Nat) (n : Nat) (h : beyond o n = true) :
    ∀ i, o = some i → i < RX_DATA_SIZE ∨ n ≤ i := by
  intro i hi
  subst hi
  simp only [beyond, decide_eq_true_eq] at h
  exact Or.inr h

theorem main_loop_data_set (s : State) (hd : s.data_received = true) :
    (main_loop_data s).data_received = false ∧
    (main_loop_data s).label = c_str s.rx_data ∧
    (main_loop_data s).frames = s.frames ++ [c_str s.rx_data] ∧
    (main_loop_data s).layout = s.layout ∧
    (s.refresh = false → (main_loop_data s).refresh = false) := by
  have h := storeLoop_frame (fun _ => 0) RX_DATA_SIZE_MAIN
    (lv_task_handler (lv_label_set_text { s with data_received := false } s.rx_data))
  have hdr := storeLoop_zero_data_received RX_DATA_SIZE_MAIN
    (lv_task_handler (lv_label_set_text { s with data_received := false } s.rx_data)) rfl
  simp only [main_loop_data, hd, if_true, memset]
  refine ⟨hdr, ?_, ?_, ?_, ?_⟩
  · rw [h.1]
    simp [lv_task_handler, lv_label_set_text, c_str]
  · rw [h.2.1]
    simp [lv_task_handler, lv_label_set_text, c_str]
  · rw [h.2.2]
    rfl
  · intro hr
    exact storeLoop_zero_refresh RX_DATA_SIZE_MAIN _ hr

theorem main_loop_data_set_keep (s : State) (hd : s.data_received = true)
    (h1 : beyond s.layout.refresh RX_DATA_SIZE_MAIN = true)
    (h2 : beyond s.layout.button_pressed RX_DATA_SIZE_MAIN = true) :
    (main_loop_data s).refresh = s.refresh ∧
    (main_loop_data s).button_pressed = s.button_pressed := by
  simp only [main_loop_data, hd, if_true, memset]
  constructor
  · exact storeLoop_refresh_keep (fun _ => 0) RX_DATA_SIZE_MAIN _ (beyond_spec _ _ h1)
  · exact storeLoop_button_pressed_keep (fun _ => 0) RX_DATA_SIZE_MAIN _ (beyond_spec _ _ h2)

theorem main_loop_data_set_hit (s : State) (hd : s.data_received = true) (k : Nat)
    (hk : s.layout.refresh = some k) (h1 : RX_DATA_SIZE ≤ k) (h2 : k < RX_DATA_SIZE_MAIN) :
    (main_loop_data s).refresh = false := by
  simp only [main_loop_data, hd, if_true, memset]
  exact storeLoop_zero_refresh_hit RX_DATA_SIZE_MAIN _ k hk h1 h2

theorem main_loop_data_set_oob (s : State) (hd : s.data_received = true) :
    (main_loop_data s).oob =
      s.oob ++ ((List.range RX_DATA_SIZE_MAIN).filter
        (fun i => decide (RX_DATA_SIZE ≤ i))).map (fun i => (i, 0)) := by
  simp only [main_loop_data, hd, if_true, memset]
  rw [storeLoop_oob]
  rfl

theorem main_loop_refresh_set (s : State) (hr : s.refresh = true) :
    (main_loop_refresh s).refresh = false ∧
    (main_loop_refresh s).data_received = s.data_received ∧
    (main_loop_refresh s).button_pressed = s.button_pressed ∧
    (main_loop_refresh s).rx_data = s.rx_data ∧
    (main_loop_refresh s).oob = s.oob ∧
    (main_loop_refresh s).label =
      (if s.button_pressed = 0 then lit "Button 0 pressed" else lit "Button 1 pressed") ∧
    (main_loop_refresh s).frames = s.frames ++
      [if s.button_pressed = 0 then lit "Button 0 pressed" else lit "Button 1 pressed"] := by
  have c0 : c_str (lit "Button 0 pressed") = lit "Button 0 pressed" := by decide
  have c1 : c_str (lit "Button 1 pressed") = lit "Button 1 pressed" := by decide
  simp only [main_loop_refresh, hr, if_true]
  by_cases hb : s.button_pressed = 0
  · simp [hb, lv_task_handler, lv_label_set_text, c0]
  · simp [hb, lv_task_handler, lv_label_set_text, c1]

theorem main_loop_refresh_clear (s : State) (hr : s.refresh = false) :
    main_loop_refresh s = s := by
  simp [main_loop_refresh, hr]

theorem main_loop_iter_idle (s : State) (hd : s.data_received = false)
    (hr : s.refresh = false) : main_loop_iter s = s := by
  simp [main_loop_iter, main_loop_data, main_loop_refresh, hd, hr]

/-- Both flags set, and `refresh`, `button_pressed` and `label` out of reach
of the stores behind the array: the two texts are drawn in the one
iteration. -/
theorem main_loop_iter_both_set (s : State) (hd : s.data_received = true)
    (hr : s.refresh = true) (hc : s.layout.clear RX_DATA_SIZE_MAIN = true) :
    (main_loop_iter s).frames = s.frames ++ [c_str s.rx_data,
      if s.button_pressed = 0 then lit "Button 0 pressed" else lit "Button 1 pressed"] ∧
    (main_loop_iter s).label =
      (if s.button_pressed = 0 then lit "Button 0 pressed" else lit "Button 1 pressed") ∧
    (main_loop_iter s).data_received = false ∧
    (main_loop_iter s).refresh = false ∧
    (main_loop_iter s).button_pressed = s.button_pressed ∧
    main_loop_iter (main_loop_iter s) = main_loop_iter s := by
  simp only [Layout.clear, Bool.and_eq_true] at hc
  have hm := main_loop_data_set s hd
  have hk := main_loop_data_set_keep s hd hc.1.1 hc.1.2
  have h3 := main_loop_refresh_set (main_loop_data s) (hk.1.trans hr)
  have hdr : (main_loop_iter s).data_received = false := h3.2.1.trans hm.1
  have hrf : (main_loop_iter s).refresh = false := h3.1
  refine ⟨?_, ?_, hdr, hrf, ?_, main_loop_iter_idle _ hdr hrf⟩
  · show (main_loop_refresh (main_loop_data s)).frames = _
    rw [h3.2.2.2.2.2.2, hm.2.2.1, hk.2]
    simp
  · show (main_loop_refresh (main_loop_data s)).label = _
    rw [h3.2.2.2.2.2.1, hk.2]
  · show (main_loop_refresh (main_loop_data s)).button_pressed = _
    rw [h3.2.2.1, hk.2]

/-- Both flags set, and the byte of `refresh` among the bytes that the
`memset` of the iteration zeroes behind the array: the flag is cleared by
that `memset`, the second `if` is not entered, the buffered text is the one
text drawn. -/
theorem main_loop_iter_both_hit (s : State) (hd : s.data_received = true) (k : Nat)
    (hk : s.layout.refresh = some k) (h1 : RX_DATA_SIZE ≤ k) (h2 : k < RX_DATA_SIZE_MAIN) :
    (main_loop_iter s).frames = s.frames ++ [c_str s.rx_data] ∧
    (main_loop_iter s).data_received = false ∧
    (main_loop_iter s).refresh = false ∧
    main_loop_iter (main_loop_iter s) = main_loop_iter s := by
  have hm := main_loop_data_set s hd
  have hh := main_loop_data_set_hit s hd k hk h1 h2
  have he : main_loop_iter s = main_loop_data s := main_loop_refresh_clear _ hh
  rw [he]
  exact ⟨hm.2.2.1, hm.1, hh, main_loop_iter_idle _ hm.1 hh⟩

/-- C4, as stated, fails.  In the state `both_pending` both flags are set and
no global lies behind the array: one iteration draws the buffered text "hi"
and then, in the same iteration, the message of button 1, so the label ends
the iteration showing the button message, `refresh` is false at the end of
the iteration, and the next iteration draws nothing.  In an image in which
the byte of `refresh` lies 328 bytes from the start of `rx_data`, wherever
the other globals lie, the iteration draws "hi" alone, and again `refresh`
is false at its end and the next iteration draws nothing. -/
theorem render_priority_counterexample :
    both_pending.data_received = true ∧ both_pending.refresh = true ∧
    both_pending.layout = Layout.apart ∧
    (main_loop_iter both_pending).refresh = false ∧
    (main_loop_iter both_pending).frames =
      both_pending.frames ++ [lit "hi", lit "Button 1 pressed"] ∧
    (main_loop_iter both_pending).label = lit "Button 1 pressed" ∧
    (main_loop_iter (main_loop_iter both_pending)).frames =
      (main_loop_iter both_pending).frames ∧
    (∀ l : Layout, l.refresh = some 328 →
      (both_pending_at l).data_received = true ∧ (both_pending_at l).refresh = true ∧
      (main_loop_iter (both_pending_at l)).refresh = false ∧
      (main_loop_iter (both_pending_at l)).frames = both_pending.frames ++ [lit "hi"] ∧
      (main_loop_iter (main_loop_iter (both_pending_at l))).frames =
        (main_loop_iter (both_pending_at l)).frames) := by
  have h := main_loop_iter_both_set both_pending rfl rfl rfl
  have hc : c_str both_pending.rx_data = lit "hi" := by decide
  have hb : both_pending.button_pressed = 1 := rfl
  rw [hc, hb] at h
  refine ⟨rfl, rfl, rfl, h.2.2.2.1, h.1, h.2.1, by rw [h.2.2.2.2.2], ?_⟩
  intro l hl
  have g := main_loop_iter_both_hit (both_pending_at l) rfl 328 hl (by decide) (by decide)
  have gc : c_str (both_pending_at l).rx_data = lit "hi" := hc
  have gf : (both_pending_at l).frames = both_pending.frames := rfl
  rw [gc, gf] at g
  exact ⟨rfl, rfl, g.2.2.1, g.1, by rw [g.2.2.2]⟩

/-- C4, amended.  When `data_received` and `refresh` are both true at the
start of an iteration of the polling loop, and none of `refresh`,
`button_pressed` and `label` lies among the 136 bytes behind `rx_data` that
the `memset` of the iteration zeroes: the iteration draws the buffered text
first and the message of the button in `button_pressed` second; at its end
the label shows the button message, both flags are false and
`button_pressed` is as before; an iteration that follows without a new event
leaves the state as it is and so draws nothing. -/
theorem main_loop_iter_both (s : State) (hd : s.data_received = true)
    (hr : s.refresh = true) (hc : s.layout.clear RX_DATA_SIZE_MAIN = true) :
    (main_loop_iter s).frames = s.frames ++ [c_str s.rx_data,
      if s.button_pressed = 0 then lit "Button 0 pressed" else lit "Button 1 pressed"] ∧
    (main_loop_iter s).label =
      (if s.button_pressed = 0 then lit "Button 0 pressed" else lit "Button 1 pressed") ∧
    (main_loop_iter s).data_received = false ∧
    (main_loop_iter s).refresh = false ∧
    (main_loop_iter s).button_pressed = s.button_pressed ∧
    main_loop_iter (main_loop_iter s) = main_loop_iter s :=
  main_loop_iter_both_set s hd hr hc

/-- A witness for the amended C4: the state `both_pending`. -/
theorem main_loop_iter_both_witness :
    both_pending.data_received = true ∧ both_pending.refresh = true ∧
    both_pending.layout.clear RX_DATA_SIZE_MAIN = true ∧
    (main_loop_iter both_pending).data_received = false ∧
    (main_loop_iter both_pending).refresh = false ∧
    main_loop_iter (main_loop_iter both_pending) = main_loop_iter both_pending :=
  have h := main_loop_iter_both both_pending rfl rfl rfl
  ⟨rfl, rfl, rfl, h.2.2.1, h.2.2.2.1, h.2.2.2.2.2⟩

theorem and_BIT_ne_zero (pins p : Nat) : pins &&& BIT p ≠ 0 ↔ pins.testBit p = true := by
  unfold BIT
  rw [Nat.one_shiftLeft]
  constructor
  · intro h
    by_contra hb
    apply h
    apply Nat.eq_of_testBit_eq
    intro i
    rw [Nat.testBit_and, Nat.testBit_two_pow, Nat.zero_testBit]
    by_cases hpi : p = i
    · subst hpi
      simp [hb]
    · simp [hpi]
  · intro hb h
    have := congrArg (fun n => n.testBit p) h
    simp [Nat.testBit_and, Nat.testBit_two_pow, hb] at this

theorem BIT_testBit (p q : Nat) : (BIT p).testBit q = decide (p = q) := by
  unfold BIT
  rw [Nat.one_shiftLeft, Nat.testBit_two_pow]

theorem button_isr_callback_cases (pin0 pin1 : Nat) (s : State) (pins : Nat) :
    (button_isr_callback pin0 pin1 s pins).refresh = true ∧
    (pins.testBit pin0 = true → (button_isr_callback pin0 pin1 s pins).button_pressed = 0) ∧
    (pins.testBit pin0 = false → pins.testBit pin1 = true →
      (button_isr_callback pin0 pin1 s pins).button_pressed = 1) ∧
    (pins.testBit pin0 = false → pins.testBit pin1 = false →
      (button_isr_callback pin0 pin1 s pins).button_pressed = s.button_pressed) := by
  have e0 := and_BIT_ne_zero pins pin0
  have e1 := and_BIT_ne_zero pins pin1
  unfold button_isr_callback
  refine ⟨rfl, ?_, ?_, ?_⟩
  · intro h0
    simp [e0.mpr h0]
  · intro h0 h1
    have n0 : ¬ (pins &&& BIT pin0 ≠ 0) := fun h => by simp [e0.mp h] at h0
    simp only [n0, if_false]
    rw [if_pos (e1.mpr h1)]
  · intro h0 h1
    have n0 : ¬ (pins &&& BIT pin0 ≠ 0) := fun h => by simp [e0.mp h] at h0
    have n1 : ¬ (pins &&& BIT pin1 ≠ 0) := fun h => by simp [e1.mp h] at h1
    simp only [n0, if_false]
    rw [if_neg n1]


/-- C6.  For every pin mask that reports the pin that fired, so not the
pins of both buttons at once, with the two buttons on distinct pins, and
from every prior state: after the call `refresh` is true; `button_pressed`
is 0 when the bit of button 0 is set in the mask and 1 when the bit of
button 1 is set; a `button_pressed` that was 0 or 1, as it is from start-up
on, is 0 or 1 afterwards; an interrupt for button 1 never records id 0; for
the mask of one pin alone, with which each callback is registered, the id
recorded is that of its button.  The buffer, its flag and the label are not
touched. -/
theorem button_isr_callback_identifies (pin0 pin1 : Nat) (s : State) (pins : Nat)
    (hne : pin0 ≠ pin1)
    (hone : ¬ (pins.testBit pin0 = true ∧ pins.testBit pin1 = true)) :
    (button_isr_callback pin0 pin1 s pins).refresh = true ∧
    (pins.testBit pin0 = true → (button_isr_callback pin0 pin1 s pins).button_pressed = 0) ∧
    (pins.testBit pin1 = true → (button_isr_callback pin0 pin1 s pins).button_pressed = 1) ∧
    (s.button_pressed ≤ 1 → (button_isr_callback pin0 pin1 s pins).button_pressed ≤ 1) ∧
    (pins.testBit pin1 = true → (button_isr_callback pin0 pin1 s pins).button_pressed ≠ 0) ∧
    boot.button_pressed = 0 ∧
    (button_isr_callback pin0 pin1 s (BIT pin0)).button_pressed = 0 ∧
    (button_isr_callback pin0 pin1 s (BIT pin1)).button_pressed = 1 ∧
    (button_isr_callback pin0 pin1 s pins).rx_data = s.rx_data ∧
    (button_isr_callback pin0 pin1 s pins).data_received = s.data_received ∧
    (button_isr_callback pin0 pin1 s pins).oob = s.oob ∧
    (button_isr_callback pin0 pin1 s pins).label = s.label ∧
    (button_isr_callback pin0 pin1 s pins).frames = s.frames := by
  have h := button_isr_callback_cases pin0 pin1 s pins
  have hb0 := button_isr_callback_cases pin0 pin1 s (BIT pin0)
  have hb1 := button_isr_callback_cases pin0 pin1 s (BIT pin1)
  have h01 : pins.testBit pin1 = true → pins.testBit pin0 = false := by
    intro h1
    cases h0 : pins.testBit pin0 with
    | true => exact absurd ⟨h0, h1⟩ hone
    | false => rfl
  have hp1 : pins.testBit pin1 = true →
      (button_isr_callback pin0 pin1 s pins).button_pressed = 1 :=
    fun h1 => h.2.2.1 (h01 h1) h1
  refine ⟨h.1, h.2.1, hp1, ?_, ?_, rfl, ?_, ?_, ?_⟩
  · intro hs
    cases h0 : pins.testBit pin0 with
    | true => rw [h.2.1 h0]; omega
    | false =>
      cases h1 : pins.testBit pin1 with
      | true => rw [h.2.2.1 h0 h1]
      | false => rw [h.2.2.2 h0 h1]; exact hs
  · intro h1
    rw [hp1 h1]
    decide
  · exact hb0.2.1 (by rw [BIT_testBit]; simp)
  · exact hb1.2.2.1 (by rw [BIT_testBit]; simpa using fun e => hne e.symm)
      (by rw [BIT_testBit]; simp)
  · unfold button_isr_callback
    split
    · simp
    · split <;> simp

/-- A witness for C6: buttons on pins 11 and 12, the interrupt of pin 12
alone, in the start-up state. -/
theorem button_isr_callback_identifies_witness :
    (11 : Nat) ≠ 12 ∧
    ¬ ((BIT 12).testBit 11 = true ∧ (BIT 12).testBit 12 = true) ∧
    (BIT 12).testBit 12 = true ∧
    (button_isr_callback 11 12 boot (BIT 12)).refresh = true ∧
    (button_isr_callback 11 12 boot (BIT 12)).button_pressed = 1 ∧
    (button_isr_callback 11 12 boot (BIT 11)).button_pressed = 0 :=
  have h := button_isr_callback_identifies 11 12 boot (BIT 12) (by decide) (by decide)
  ⟨by decide, by decide, by decide, h.1, h.2.2.1 (by decide), h.2.2.2.2.2.2.1⟩

/-! ## Start-up notification and disconnect -/

/-- C8. The notify gate of `bt_init`, reached when `bt_enable` and
`bt_le_adv_start` both return 0: whatever the state before and for every
MTU value `m` the stack reports, `bt_init` sends a notification if and only
if `m ≥ 103 = 1 + 2 + 100`; it sends at most one; the payload sent is 100
bytes long with byte 13 equal to `0x7F`, byte 99 equal to `0x55` and every
other byte 0; when `m < 103` no notification is sent. -/
theorem bt_init_notify_gate (s : BtState) (m : Nat) :
    ATT_NTF_SIZE notify_data.length = 103 ∧
    (notifications ((bt_init s 0 0 m).2.calls.drop s.calls.length) ≠ [] ↔ 103 ≤ m) ∧
    notifications ((bt_init s 0 0 m).2.calls.drop s.calls.length) =
      (if 103 ≤ m then [notify_data] else []) ∧
    (bt_init s 0 0 m).2.calls.take s.calls.length = s.calls ∧
    notify_data.length = 100 ∧
    notify_data[13]? = some 0x7f ∧ notify_data[99]? = some 0x55 ∧
    notify_data =
      List.replicate 13 0 ++ [0x7f] ++ List.replicate 85 0 ++ [0x55] := by
  have hl : notify_data.length = 100 := by simp [notify_data]
  have hsz : ATT_NTF_SIZE notify_data.length = 103 := by rw [hl]; rfl
  have key : notifications ((bt_init s 0 0 m).2.calls.drop s.calls.length) =
      (if 103 ≤ m then [notify_data] else []) := by
    unfold bt_init
    simp only [ne_eq, not_true_eq_false, if_false, hsz, ge_iff_le]
    by_cases hm : 103 ≤ m
    · simp [hm, List.append_assoc, notifications]
    · simp [hm, List.append_assoc, notifications]
  refine ⟨hsz, ?_, key, ?_, hl, by decide, by decide, by decide⟩
  · rw [key]
    by_cases hm : 103 ≤ m <;> simp [hm]
  · unfold bt_init
    simp only [ne_eq, not_true_eq_false, if_false, hsz, ge_iff_le]
    by_cases hm : 103 ≤ m
    · simp [hm, List.append_assoc]
    · simp [hm, List.append_assoc]

/-- C9. From every connection state, for every disconnect reason and
whatever `bt_le_adv_start` returns, the `disconnected` callback makes exactly
one advertising-start call, after releasing the connection and stopping
advertising, and leaves `default_conn` null. -/
theorem disconnected_restarts_once (s : BtState) (conn reason : Nat) (adv_err : Int) :
    (disconnected s conn reason adv_err).default_conn = none ∧
    ((disconnected s conn reason adv_err).calls.drop s.calls.length).count
      StackCall.bt_le_adv_start = 1 ∧
    ((disconnected s conn reason adv_err).calls.drop s.calls.length).take 3 =
      [StackCall.bt_conn_unref conn, StackCall.bt_le_adv_stop, StackCall.bt_le_adv_start] ∧
    (disconnected s conn reason adv_err).calls.take s.calls.length = s.calls := by
  unfold disconnected
  by_cases he : adv_err = 0
  · simp [he, List.append_assoc]
  · simp [he, List.append_assoc]


/-! ## The shell command -/

theorem c_str_append_zeros (l t : List Nat) (hl : ∀ b ∈ l, b ≠ 0) (ht : ∀ b ∈ t, b = 0) :
    c_str (l ++ t) = l := by
  cases t with
  | nil =>
    simp only [List.append_nil, c_str]
    rw [List.takeWhile_eq_self_iff]
    intro b hb
    simpa using hl b hb
  | cons a t =>
    have ha : a = 0 := ht a (List.mem_cons_self a t)
    subst ha
    exact c_str_append_zero l t hl

theorem c_str_ne_zero (l : List Nat) : ∀ b ∈ c_str l, b ≠ 0 := by
  intro b hb
  have := List.mem_takeWhile_imp hb
  simpa using this

theorem range_map_getD_take (l : List Nat) (n : Nat) :
    (List.range n).map (fun i => l.getD i 0) = l.take n ++ List.replicate (n - l.length) 0 := by
  apply List.ext_getElem?
  intro j
  by_cases hj : j < n
  · by_cases hjl : j < l.length
    · rw [List.getElem?_append_left (by simp; omega)]
      simp [hj, hjl, List.getD_eq_getElem?_getD, List.getElem?_take]
    · rw [List.getElem?_append_right (by simp; omega)]
      simp only [List.getElem?_map, List.getElem?_range hj, Option.map_some',
        List.getElem?_replicate, List.length_take]
      have h1 : j - min n l.length < n - l.length := by omega
      rw [if_pos h1, List.getD_eq_getElem?_getD, List.getElem?_eq_none (by omega)]
      rfl
  · rw [List.getElem?_eq_none (by simp; omega), List.getElem?_eq_none (by simp; omega)]

theorem cmd_refresh_rx_data (ptr_size : Nat) (s : State) (arg : List Nat)
    (hlen : s.rx_data.length = RX_DATA_SIZE) (hp : ptr_size - 1 ≤ RX_DATA_SIZE) :
    (cmd_refresh ptr_size s arg).2.rx_data =
      (c_str arg).take (ptr_size - 1) ++
        List.replicate (RX_DATA_SIZE - ((c_str arg).take (ptr_size - 1)).length) 0 := by
  have h1 := memset_zero_rx_data s RX_DATA_SIZE_MAIN hlen (by decide)
  have h1l : (memset s 0 RX_DATA_SIZE_MAIN).rx_data.length = RX_DATA_SIZE := by
    rw [h1, List.length_replicate]
  have h2 : (strncpy (memset s 0 RX_DATA_SIZE_MAIN) arg (ptr_size - 1)).rx_data =
      (List.range (ptr_size - 1)).map (fun i => (c_str arg).getD i 0) ++
        (List.replicate RX_DATA_SIZE 0).drop (ptr_size - 1) := by
    unfold strncpy
    rw [storeLoop_rx_data _ _ _ h1l hp, h1]
  have h3 : (store (strncpy (memset s 0 RX_DATA_SIZE_MAIN) arg (ptr_size - 1))
      (RX_DATA_SIZE_MAIN - 1) 0).rx_data =
      (strncpy (memset s 0 RX_DATA_SIZE_MAIN) arg (ptr_size - 1)).rx_data := by
    have : ¬ (RX_DATA_SIZE_MAIN - 1 < RX_DATA_SIZE) := by decide
    simp [store, this]
  show (store (strncpy (memset s 0 RX_DATA_SIZE_MAIN) arg (ptr_size - 1))
      (RX_DATA_SIZE_MAIN - 1) 0).rx_data = _
  rw [h3, h2, range_map_getD_take, List.drop_replicate, List.append_assoc,
    List.append_replicate_replicate, List.length_take]
  have e : ptr_size - 1 - (c_str arg).length + (RX_DATA_SIZE - (ptr_size - 1)) =
      RX_DATA_SIZE - min (ptr_size - 1) (c_str arg).length := by omega
  rw [e]

/-- The text the command sets and draws, in an image in which the pointer
`label` is out of reach of the stores behind the array.  (The proof does not
use that hypothesis: it marks where the model stops following the code.) -/
theorem cmd_refresh_label (ptr_size : Nat) (s : State) (arg : List Nat)
    (hlen : s.rx_data.length = RX_DATA_SIZE) (hp : ptr_size - 1 ≤ RX_DATA_SIZE)
    (_hl : beyond s.layout.label RX_DATA_SIZE_MAIN = true) :
    (cmd_refresh ptr_size s arg).2.label = (c_str arg).take (ptr_size - 1) ∧
    (cmd_refresh ptr_size s arg).2.frames = s.frames ++ [(c_str arg).take (ptr_size - 1)] := by
  have hrx := cmd_refresh_rx_data ptr_size s arg hlen hp
  have hc : c_str (cmd_refresh ptr_size s arg).2.rx_data = (c_str arg).take (ptr_size - 1) := by
    rw [hrx]
    apply c_str_append_zeros
    · intro b hb
      exact c_str_ne_zero arg b (List.mem_of_mem_take hb)
    · intro b hb
      exact (List.mem_replicate.mp hb).2
  have hf1 := store_frame (strncpy (memset s 0 RX_DATA_SIZE_MAIN) arg (ptr_size - 1))
    (RX_DATA_SIZE_MAIN - 1) 0
  have hf2 := storeLoop_frame (fun i => (c_str arg).getD i 0) (ptr_size - 1)
    (memset s 0 RX_DATA_SIZE_MAIN)
  have hf3 := storeLoop_frame (fun _ => 0) RX_DATA_SIZE_MAIN s
  have hfr : (store (strncpy (memset s 0 RX_DATA_SIZE_MAIN) arg (ptr_size - 1))
      (RX_DATA_SIZE_MAIN - 1) 0).frames = s.frames :=
    hf1.2.1.trans (hf2.2.1.trans hf3.2.1)
  constructor
  · exact hc
  · show (store (strncpy (memset s 0 RX_DATA_SIZE_MAIN) arg (ptr_size - 1))
      (RX_DATA_SIZE_MAIN - 1) 0).frames ++ [c_str (cmd_refresh ptr_size s arg).2.rx_data] = _
    rw [hfr, hc]

theorem cmd_refresh_oob (ptr_size : Nat) (s : State) (arg : List Nat) :
    (cmd_refresh ptr_size s arg).2.oob =
      s.oob ++
      ((List.range RX_DATA_SIZE_MAIN).filter (fun i => decide (RX_DATA_SIZE ≤ i))).map
        (fun i => (i, 0)) ++
      ((List.range (ptr_size - 1)).filter (fun i => decide (RX_DATA_SIZE ≤ i))).map
        (fun i => (i, (c_str arg).getD i 0)) ++
      [(RX_DATA_SIZE_MAIN - 1, 0)] := by
  show (store (strncpy (memset s 0 RX_DATA_SIZE_MAIN) arg (ptr_size - 1))
      (RX_DATA_SIZE_MAIN - 1) 0).oob = _
  have : ¬ (RX_DATA_SIZE_MAIN - 1 < RX_DATA_SIZE) := by decide
  rw [store_oob, if_neg this]
  unfold strncpy memset
  rw [storeLoop_oob, storeLoop_oob]


/-- C7, at the failing input. The argument "hello world" (11 bytes, far
below the capacity) is not copied whole: `strncpy` is given the bound
`sizeof(argv) - 1`, the size of a pointer less one, so with 4-byte pointers
the buffer and the label hold "hel", with 8-byte pointers "hello w". -/
theorem cmd_refresh_hello_world :
    (lit "hello world").length < RX_DATA_SIZE ∧
    (cmd_refresh 4 boot (lit "hello world")).2.label = lit "hel" ∧
    (cmd_refresh 4 boot (lit "hello world")).2.rx_data =
      lit "hel" ++ List.replicate (RX_DATA_SIZE - 3) 0 ∧
    (cmd_refresh 4 boot (lit "hello world")).2.frames = boot.frames ++ [lit "hel"] ∧
    (cmd_refresh 8 boot (lit "hello world")).2.label = lit "hello w" ∧
    lit "hel" ≠ lit "hello world" ∧ lit "hello w" ≠ lit "hello world" := by
  have hl : boot.rx_data.length = RX_DATA_SIZE := by simp [boot]
  have h4 := cmd_refresh_label 4 boot (lit "hello world") hl (by decide) rfl
  have r4 := cmd_refresh_rx_data 4 boot (lit "hello world") hl (by decide)
  have h8 := cmd_refresh_label 8 boot (lit "hello world") hl (by decide) rfl
  have e4 : (c_str (lit "hello world")).take (4 - 1) = lit "hel" := by decide
  have e8 : (c_str (lit "hello world")).take (8 - 1) = lit "hello w" := by decide
  have l3 : (lit "hel").length = 3 := by decide
  rw [e4] at h4 r4
  rw [e8] at h8
  rw [l3] at r4
  exact ⟨by decide, h4.1, r4, h4.2, h8.1, by decide, by decide⟩

theorem main_loop_refresh_oob (s : State) : (main_loop_refresh s).oob = s.oob := by
  by_cases hr : s.refresh = true
  · exact (main_loop_refresh_set s hr).2.2.2.2.1
  · simp [main_loop_refresh, hr]

set_option maxRecDepth 100000 in
theorem range_filter_past_end :
    (List.range RX_DATA_SIZE_MAIN).filter (fun i => decide (RX_DATA_SIZE ≤ i)) =
      List.range' 248 136 := by
  rfl

/-- C10, at the failing input. After the write of "hello" in the start-up
state, one iteration of the polling loop zeroes `sizeof(rx_data) = 384` bytes
as main.c sees the array: the 136 stores at the indices 248 to 383 lie past
the end of the 248-byte array of bt.c. The shell command does the same
and then stores its terminator at index 383. -/
theorem consumer_stores_past_end :
    (write_handler boot (lit "hello") 5 0).2.oob = [] ∧
    (main_loop_iter (write_handler boot (lit "hello") 5 0).2).oob =
      (List.range' 248 136).map (fun i => (i, 0)) ∧
    (383, 0) ∈ (main_loop_iter (write_handler boot (lit "hello") 5 0).2).oob ∧
    (cmd_refresh 4 boot (lit "hi")).2.oob =
      (List.range' 248 136).map (fun i => (i, 0)) ++ [(383, 0)] := by
  have ho : (write_handler boot (lit "hello") 5 0).2.oob = [] :=
    write_handler_oob boot (lit "hello") (by decide)
  have hd : (write_handler boot (lit "hello") 5 0).2.data_received = true := by
    simp [write_handler, RX_DATA_SIZE]
  have h1 : (main_loop_iter (write_handler boot (lit "hello") 5 0).2).oob =
      (List.range' 248 136).map (fun i => (i, 0)) := by
    show (main_loop_refresh (main_loop_data (write_handler boot (lit "hello") 5 0).2)).oob = _
    rw [main_loop_refresh_oob, main_loop_data_set_oob _ hd, ho, range_filter_past_end]
    rfl
  refine ⟨ho, h1, ?_, ?_⟩
  · rw [h1]
    simp
  · rw [cmd_refresh_oob, range_filter_past_end]
    rfl

end EPD
